import Mathlib

/-
Verification development for the session-bootstrap controller
(src/worker/api/controllers/agent/controller.ts) and the conversational
turn processor (src/unnamed/part_000, the full version of
src/worker/agents/operations/UserConversationProcessor.ts).

The TypeScript is shallowly embedded: the stateful pieces (the mutable
id-generator counter, the turn-local mutable slots, the duplex stream and
the effect log of the controller) are made explicit as threaded state and
trace values; external collaborators (the quota engine, the template
resolver, the inference engine, the agent actor) are inputs describing
their observed behaviour, per their narrow contracts.
-/

/-! ## String utilities

JavaScript's String.prototype.includes, re-implemented structurally over
the character list so that the kernel can evaluate it. -/

/-- Boolean test that the first character list is an initial segment of the
second (helper for substring containment). -/
def charIsPrefixOf : List Char → List Char → Bool
  | [], _ => true
  | _ :: _, [] => false
  | a :: as, b :: bs => a == b && charIsPrefixOf as bs

/-- Boolean substring containment on character lists: does some suffix of
the second argument start with the pattern. -/
def charContainsSub (pat : List Char) : List Char → Bool
  | [] => charIsPrefixOf pat []
  | c :: rest => charIsPrefixOf pat (c :: rest) || charContainsSub pat rest

/-- Embedding of JavaScript string.includes(pattern). -/
def stringIncludes (s pat : String) : Bool :=
  charContainsSub pat.data s.data

/-! ## Id generation

Both files draw opaque fresh identifiers from worker/utils/idGenerator
(generateId for the agent id, IdGenerator.generateConversationId for
message correlation ids). The generator is modelled as a natural-number
counter: a draw returns the current counter value and the bumped counter,
so distinct draws yield distinct ids — the spec's "assuming the id
generator yields fresh values". -/

namespace IdGenerator

/-- One draw from the conversation-id generator: value and next state. -/
def generateConversationId (g : Nat) : Nat × Nat := (g, g + 1)

end IdGenerator

/-! ## Conversation data model (src/unnamed/part_000) -/

/-- Message roles occurring in ConversationMessage. -/
inductive Role where
  | user
  | assistant
  | system
  | toolTrace
  deriving DecidableEq

/-- Message content: a plain string or a structured (non-string) payload;
the internal-memo filter only inspects string content (the source guards
with typeof content === 'string'). -/
inductive MessageContent where
  | str (s : String)
  | structured
  deriving DecidableEq

/-- ConversationMessage: role, content and the correlation id
(conversationId) grouping fragments of one logical turn. -/
structure ConversationMessage where
  role : Role
  content : MessageContent
  conversationId : Nat
  deriving DecidableEq

/-- createUserMessage from inferutils/common: a user-role message carrying
the given text (the correlation id is always overwritten by the caller via
the object spread, so the placeholder 0 is never observable). -/
def createUserMessage (content : String) : ConversationMessage :=
  { role := Role.user, content := MessageContent.str content, conversationId := 0 }

/-- createAssistantMessage from inferutils/common, same shape for the
assistant role. -/
def createAssistantMessage (content : String) : ConversationMessage :=
  { role := Role.assistant, content := MessageContent.str content, conversationId := 0 }

/-- The object spread { ...message, conversationId: id } of the source:
same message with the correlation id replaced. -/
def ConversationMessage.withConversationId (m : ConversationMessage) (id : Nat) :
    ConversationMessage :=
  { m with conversationId := id }

/-- The fixed fallback text FALLBACK_USER_RESPONSE (part_000 line 53). -/
def FALLBACK_USER_RESPONSE : String :=
  "I understand you\x27d like to make some changes to your project. Let me make sure this is incorporated in the next phase of development."

/-- ConversationalResponseType: the two independent outputs of a turn. -/
structure ConversationalResponseType where
  enhancedUserRequest : String
  userResponse : String
  deriving DecidableEq

/-- UserConversationInputs (the callback field is represented by the
recorded behaviour in InferenceBehavior, not carried here). -/
structure UserConversationInputs where
  userMessage : String
  pastMessages : List ConversationMessage

/-- UserConversationOutputs. -/
structure UserConversationOutputs where
  conversationResponse : ConversationalResponseType
  messages : List ConversationMessage
  deriving DecidableEq

/-! ## Turn-local mutable state and the queue-an-edit tool -/

/-- The two turn-local mutable slots of execute: the streamed-text
accumulator extractedUserResponse and the enhanced-request slot
extractedEnhancedRequest (part_000 lines 100-101). -/
structure TurnSlots where
  extractedUserResponse : String
  extractedEnhancedRequest : String
  deriving DecidableEq

/-- EditAppArgs: the argument object of the queue-an-edit tool. -/
structure EditAppArgs where
  modificationRequest : String
  deriving DecidableEq

/-- The JSON-schema entry for the modificationRequest string property. -/
structure StringPropertySchema where
  type : String
  minLength : Nat
  description : String
  deriving DecidableEq

/-- The parameters schema of the queue-an-edit tool (type object, one
property, required list, no additional properties). -/
structure EditAppParameters where
  type : String
  additionalProperties : Bool
  modificationRequest : StringPropertySchema
  required : List String
  deriving DecidableEq

/-- The function declaration part of the tool definition. -/
structure ToolFunctionDecl where
  name : String
  description : String
  parameters : EditAppParameters
  deriving DecidableEq

/-- The result object returned by the tool implementation. -/
structure ToolResult where
  content : String
  deriving DecidableEq

/-- ToolDefinition specialised to the queue-an-edit tool; the async
implementation becomes an explicit function from arguments and the
turn-local slots to the result and the updated slots. -/
structure EditToolDefinition where
  type : String
  function : ToolFunctionDecl
  implementation : EditAppArgs → TurnSlots → ToolResult × TurnSlots

/-- buildEditAppTool (part_000 lines 61-86): schema with minLength 8 on
modificationRequest, and an implementation that runs the supplied state
mutator on the description and returns the fixed acknowledgement. -/
def buildEditAppTool (stateMutator : String → TurnSlots → TurnSlots) : EditToolDefinition :=
  { type := "function"
    function :=
      { name := "queue_request"
        description := "Queue up modification requests or changes, to be implemented in the next development phase"
        parameters :=
          { type := "object"
            additionalProperties := false
            modificationRequest :=
              { type := "string"
                minLength := 8
                description := "The changes needed to be made to the app. Please don\x27t supply any code level or implementation details. Provide detailed requirements and description of the changes you want to make." }
            required := ["modificationRequest"] } }
    implementation := fun args slots =>
      ({ content := "Modification request queued successfully, will be implemented in the next phase of development." },
       stateMutator args.modificationRequest slots) }

/-- The state mutator execute passes to buildEditAppTool (part_000 lines
126-129): overwrite the enhanced-request slot with the description. -/
def editRequestMutator : String → TurnSlots → TurnSlots :=
  fun modificationRequest slots =>
    { slots with extractedEnhancedRequest := modificationRequest }

/-! ## The inference collaborator -/

/-- The error taxonomy relevant to the catch block: the two propagating
classes RateLimitExceededError and SecurityError from shared/types/errors,
and every other error. -/
inductive InferenceError where
  | rateLimitExceeded (message : String)
  | securityError (message : String)
  | other (message : String)
  deriving DecidableEq

/-- Is the error one of the two classes the catch block re-raises
(the instanceof test of part_000 line 177). -/
def isRateLimitOrSecurity : InferenceError → Bool
  | InferenceError.rateLimitExceeded _ => true
  | InferenceError.securityError _ => true
  | InferenceError.other _ => false

/-- The value a successful executeInference resolves with: the assembled
result string and the new structured messages (tool-call traces etc.). -/
structure InferenceResult where
  string : String
  newMessages : List ConversationMessage

/-- Observed behaviour of one executeInference call (external
collaborator): the text fragments it pushed through the stream.onChunk
callback, the queue-an-edit tool invocations it performed through the tool
set, and whether it resolved with a result or threw an error. -/
structure InferenceBehavior where
  chunks : List String
  editToolCalls : List EditAppArgs
  outcome : Except InferenceError InferenceResult

/-- The internal-memo filter predicate of part_000 line 166: assistant
role, string content, content includes the marker. -/
def isInternalMemoAssistantMessage (m : ConversationMessage) : Bool :=
  match m.role, m.content with
  | Role.assistant, MessageContent.str s => stringIncludes s "Internal Memo"
  | _, _ => false

/-- The onChunk closure's effect on the slots (part_000 lines 145-149):
append the fragment to the accumulator. -/
def appendChunkToSlots (slots : TurnSlots) (chunk : String) : TurnSlots :=
  { slots with extractedUserResponse := slots.extractedUserResponse ++ chunk }

/-- The effect of one queue-an-edit tool invocation on the slots: run the
tool implementation built in execute and keep the updated slots. -/
def applyEditToolCall (slots : TurnSlots) (args : EditAppArgs) : TurnSlots :=
  ((buildEditAppTool editRequestMutator).implementation args slots).2

/-- The .map of part_000 line 167: tag each message with a freshly
generated conversation id, threading the generator state left to right. -/
def tagNewMessages : List ConversationMessage → Nat → List ConversationMessage × Nat
  | [], g => ([], g)
  | m :: rest, g =>
    let p := IdGenerator.generateConversationId g
    let q := tagNewMessages rest p.2
    (m.withConversationId p.1 :: q.1, q.2)

namespace UserConversationProcessor

/-- UserConversationProcessor.execute (part_000 lines 89-194). The
generator counter g0 is threaded explicitly; the external inference call
is represented by its observed behaviour. The system prompt and the
logging calls have no effect on the outputs and are omitted. A quota or
security error escapes as Except.error carrying the identical error
value; every other inference error lands in the fallback branch. -/
def execute (inputs : UserConversationInputs) (inference : InferenceBehavior) (g0 : Nat) :
    Except InferenceError (UserConversationOutputs × Nat) :=
  let p1 := IdGenerator.generateConversationId g0
  let messages := inputs.pastMessages ++
    [(createUserMessage inputs.userMessage).withConversationId p1.1]
  let slots0 : TurnSlots := { extractedUserResponse := "", extractedEnhancedRequest := "" }
  let p2 := IdGenerator.generateConversationId p1.2
  let slots1 := inference.chunks.foldl appendChunkToSlots slots0
  let slots2 := inference.editToolCalls.foldl applyEditToolCall slots1
  match inference.outcome with
  | Except.error e =>
    if isRateLimitOrSecurity e then
      Except.error e
    else
      let q1 := IdGenerator.generateConversationId p2.2
      let q2 := IdGenerator.generateConversationId q1.2
      Except.ok
        ({ conversationResponse :=
             { enhancedUserRequest := "User request: " ++ inputs.userMessage
               userResponse := FALLBACK_USER_RESPONSE }
           messages := inputs.pastMessages ++
             [(createUserMessage inputs.userMessage).withConversationId q1.1,
              (createAssistantMessage FALLBACK_USER_RESPONSE).withConversationId q2.1] },
         q2.2)
  | Except.ok result =>
    let filtered := result.newMessages.filter
      (fun message => !(isInternalMemoAssistantMessage message))
    let tagged := tagNewMessages filtered p2.2
    let pf := IdGenerator.generateConversationId tagged.2
    Except.ok
      ({ conversationResponse :=
           { enhancedUserRequest := slots2.extractedEnhancedRequest
             userResponse := slots2.extractedUserResponse }
         messages := messages ++ tagged.1 ++
           [(createAssistantMessage result.string).withConversationId pf.1] },
       pf.2)

end UserConversationProcessor

/-! ## Project-update summaries -/

/-- The closed enumeration RelevantProjectUpdateWebsoketMessages (part_000
lines 36-44). The seven entries come from WebSocketMessageResponses in
worker/agents/constants, a module outside this excerpt; only the shape of
the enumeration matters here, so each entry is a constructor. -/
inductive ProjectUpdateType where
  | phaseImplementing
  | phaseImplemented
  | codeReview
  | fileRegenerating
  | fileRegenerated
  | deploymentCompleted
  | commandExecuting
  deriving DecidableEq

/-- The string constant behind each enumeration entry (values live in
worker/agents/constants outside this excerpt; the tokens used here stand
in for them and no theorem depends on the exact spellings). -/
def ProjectUpdateType.label : ProjectUpdateType → String
  | ProjectUpdateType.phaseImplementing => "phase_implementing"
  | ProjectUpdateType.phaseImplemented => "phase_implemented"
  | ProjectUpdateType.codeReview => "code_review"
  | ProjectUpdateType.fileRegenerating => "file_regenerating"
  | ProjectUpdateType.fileRegenerated => "file_regenerated"
  | ProjectUpdateType.deploymentCompleted => "deployment_completed"
  | ProjectUpdateType.commandExecuting => "command_executing"

/-- The template literal preparedMessage of part_000 lines 200-202. -/
def preparedMessage (updateType : ProjectUpdateType) : String :=
  "**<Internal Memo>**\nProject Updates: " ++ updateType.label ++ "\n</Internal Memo>"

namespace UserConversationProcessor

/-- UserConversationProcessor.processProjectUpdates (part_000 lines
196-213). The try/catch is represented by the internalFailure flag: when
some internal operation throws, the catch returns the empty list;
otherwise a single internal-memo assistant message tagged with a fresh
conversation id is returned. -/
def processProjectUpdates (updateType : ProjectUpdateType) (internalFailure : Bool)
    (g : Nat) : List ConversationMessage × Nat :=
  if internalFailure then
    ([], g)
  else
    let p := IdGenerator.generateConversationId g
    ([{ role := Role.assistant
        content := MessageContent.str (preparedMessage updateType)
        conversationId := p.1 }], p.2)

end UserConversationProcessor

/-! ## Bootstrap controller (src/worker/api/controllers/agent/controller.ts)

JSON serialization: writer.write passes values into the TransformStream,
whose transform applies JSON.stringify and appends one newline. The values
actually written are the first progress event object, blueprint-fragment
objects of shape with one chunk field, and the bare string sentinel
"terminate"; WriteChunk enumerates exactly these value shapes. -/

/-- A value written to the duplex stream by the controller. -/
inductive WriteChunk where
  | strVal (s : String)
  | firstEvent (message : String) (agentId : String) (websocketUrl : String)
      (httpStatusUrl : String) (templateName : String) (templateFiles : List String)
  | chunkEvent (chunk : String)
  deriving DecidableEq

/-- JSON string escaping of one character, as JSON.stringify performs it
for the characters that can occur here. -/
def jsonEscapeChar (c : Char) : String :=
  if c = '"' then "\\\""
  else if c = '\\' then "\\\\"
  else if c = '\n' then "\\n"
  else String.singleton c

/-- JSON string escaping. -/
def jsonEscape (s : String) : String :=
  String.join (s.data.map jsonEscapeChar)

/-- JSON serialization of a string value. -/
def jsonOfString (s : String) : String :=
  "\"" ++ jsonEscape s ++ "\""

/-- JSON serialization of an array of strings. -/
def jsonOfStringList (xs : List String) : String :=
  "[" ++ String.intercalate "," (xs.map jsonOfString) ++ "]"

/-- JSON.stringify on the values the controller writes, field order as in
the object literals of the source (controller.ts lines 111-120 and 129). -/
def jsonStringify : WriteChunk → String
  | WriteChunk.strVal s => jsonOfString s
  | WriteChunk.chunkEvent c =>
      "\x7b\"chunk\":" ++ jsonOfString c ++ "\x7d"
  | WriteChunk.firstEvent message agentId websocketUrl httpStatusUrl templateName templateFiles =>
      "\x7b\"message\":" ++ jsonOfString message ++
      ",\"agentId\":" ++ jsonOfString agentId ++
      ",\"websocketUrl\":" ++ jsonOfString websocketUrl ++
      ",\"httpStatusUrl\":" ++ jsonOfString httpStatusUrl ++
      ",\"template\":\x7b\"name\":" ++ jsonOfString templateName ++
      ",\"files\":" ++ jsonOfStringList templateFiles ++ "\x7d\x7d"

/-- The state of the TransformStream controller: the byte chunks enqueued
so far (kept as the decoded strings; TextEncoder is injective on them) and
whether terminate() has been called. -/
structure TransformController where
  enqueued : List String
  terminated : Bool
  deriving DecidableEq

/-- The transform function of the TransformStream (controller.ts lines
49-58): the sentinel string terminates the stream, every other chunk is
serialized, newline-terminated and enqueued. -/
def transform (chunk : WriteChunk) (c : TransformController) : TransformController :=
  if chunk = WriteChunk.strVal "terminate" then
    { c with terminated := true }
  else
    { c with enqueued := c.enqueued ++ [jsonStringify chunk ++ "\n"] }

/-- generateId from worker/utils/idGenerator, drawn from the same style of
counter-backed supply as the conversation ids: an opaque fresh string per
draw (injective in the counter). -/
def generateId (g : Nat) : String × Nat :=
  ("agent-" ++ Nat.repr g, g + 1)

/-- The JSON body of the request, CodeGenArgs with every field optional as
it arrives from request.json() (defaults are applied later). -/
structure CodeGenArgs where
  query : Option String
  language : Option String
  frameworks : Option (List String)
  selectedTemplate : Option String
  agentMode : Option String

/-- The outcome of await request.json(): a parse failure or a parsed body. -/
inductive RequestBody where
  | malformed (err : String)
  | parsed (args : CodeGenArgs)

/-- The parts of the request URL the controller reads. -/
structure RequestInfo where
  urlHostname : String
  urlPort : String
  urlHost : String
  urlOrigin : String
  urlProtocol : String

/-- The result of getTemplateForQuery (external collaborator). -/
structure TemplateResolution where
  sandboxSessionId : String
  templateName : String
  templateFiles : List String

/-- Observed behaviour of the external collaborators of one bootstrap
request: the quota engine's verdict (enforceAppCreationRateLimit resolves
or throws with a message), the preview domain, the resolved template, the
blueprint fragments the agent pushes through onBlueprintChunk before its
initialize promise settles, and whether that promise resolves (true) or
rejects (false). -/
structure BootstrapEnv where
  previewDomain : String
  quota : Except String Unit
  template : TemplateResolution
  blueprintChunks : List String
  agentInitResolves : Bool

/-- The effect log of one startCodeGeneration call: how many duplex
streams were constructed, how many ids generateId produced, how many agent
stubs were requested, the values written to the stream writer in order,
and whether writer.close() ran. -/
structure BootstrapTrace where
  streamsCreated : Nat
  idGenCalls : Nat
  agentStubRequests : Nat
  writes : List WriteChunk
  writerClosed : Bool
  deriving DecidableEq

/-- The trace before any effect has happened. -/
def emptyTrace : BootstrapTrace :=
  { streamsCreated := 0, idGenCalls := 0, agentStubRequests := 0
    writes := [], writerClosed := false }

/-- The HTTP response of startCodeGeneration: a structured JSON error with
a status, or the 200 response whose body is the readable side of the
duplex stream. -/
inductive HttpResponse where
  | jsonError (message : String) (status : Nat)
  | streamResponse (status : Nat)
  deriving DecidableEq

/-- CodingAgentController.startCodeGeneration (controller.ts lines
31-155). Mirrors the source order: body parse (400 on failure), missing
or falsy query (400), TransformStream construction and writer acquisition,
quota enforcement (429 carrying the thrown message), generateId, the joint
model-config fetch and agent-stub request, template resolution, the first
progress event write, and the background initialize whose blueprint
fragments are relayed as chunk writes and whose resolution (only — the
promise has no rejection handler) triggers the terminate write and the
writer close. The trace records the complete eventual write log. -/
def startCodeGeneration (req : RequestInfo) (body : RequestBody) (env : BootstrapEnv)
    (g : Nat) : HttpResponse × BootstrapTrace :=
  match body with
  | RequestBody.malformed err =>
      (HttpResponse.jsonError ("Invalid JSON in request body: " ++ err) 400, emptyTrace)
  | RequestBody.parsed args =>
    match args.query with
    | none =>
        (HttpResponse.jsonError "Missing \"query\" field in request body" 400, emptyTrace)
    | some query =>
      if query = "" then
        (HttpResponse.jsonError "Missing \"query\" field in request body" 400, emptyTrace)
      else
        let streamTrace : BootstrapTrace := { emptyTrace with streamsCreated := 1 }
        match env.quota with
        | Except.error msg =>
            (HttpResponse.jsonError msg 429, streamTrace)
        | Except.ok _ =>
          let p := generateId g
          let agentId := p.1
          let websocketUrl :=
            (if req.urlProtocol = "https:" then "wss:" else "ws:") ++
            "//" ++ req.urlHost ++ "/api/agent/" ++ agentId ++ "/ws"
          let httpStatusUrl := req.urlOrigin ++ "/api/agent/" ++ agentId
          let first := WriteChunk.firstEvent "Code generation started" agentId
            websocketUrl httpStatusUrl env.template.templateName env.template.templateFiles
          let chunkWrites := env.blueprintChunks.map WriteChunk.chunkEvent
          let tailWrites :=
            if env.agentInitResolves then [WriteChunk.strVal "terminate"] else []
          (HttpResponse.streamResponse 200,
           { streamsCreated := 1
             idGenCalls := 1
             agentStubRequests := 1
             writes := first :: chunkWrites ++ tailWrites
             writerClosed := env.agentInitResolves })

/-! ## Concrete fixtures used by the witness and counterexample theorems -/

/-- A concrete turn input: one user message over an empty history. -/
def convInputs : UserConversationInputs :=
  { userMessage := "hi", pastMessages := [] }

/-- A concrete inference result holding one internal-memo assistant
message and one tool-trace message. -/
def c3Result : InferenceResult :=
  { string := "ok"
    newMessages :=
      [{ role := Role.assistant
         content := MessageContent.str "**<Internal Memo>** note"
         conversationId := 7 },
       { role := Role.toolTrace, content := MessageContent.structured
         conversationId := 8 }] }

/-- A concrete successful inference behaviour returning c3Result. -/
def c3Inference : InferenceBehavior :=
  { chunks := [], editToolCalls := [], outcome := Except.ok c3Result }

/-- A concrete inference behaviour that streams some text and then throws
a plain (non-quota, non-security) error. -/
def c4Inference : InferenceBehavior :=
  { chunks := ["partial"], editToolCalls := []
    outcome := Except.error (InferenceError.other "boom") }

/-- A concrete inference behaviour throwing a rate-limit error. -/
def c5Inference : InferenceBehavior :=
  { chunks := [], editToolCalls := []
    outcome := Except.error (InferenceError.rateLimitExceeded "rate limited") }

/-- A concrete successful inference result whose assembled string is the
concatenation of the streamed fragments, with no new structured
messages. -/
def c6Result : InferenceResult :=
  { string := "Sure, adding it now.", newMessages := [] }

/-- A concrete inference behaviour streaming two fragments, invoking the
queue-an-edit tool once, and resolving with c6Result. -/
def c6Inference : InferenceBehavior :=
  { chunks := ["Sure, ", "adding it now."]
    editToolCalls := [{ modificationRequest := "add a dark mode toggle" }]
    outcome := Except.ok c6Result }

/-- A concrete request URL for the bootstrap fixtures. -/
def witnessReq : RequestInfo :=
  { urlHostname := "example.com", urlPort := "8787", urlHost := "example.com"
    urlOrigin := "https://example.com", urlProtocol := "https:" }

/-- A concrete parsed body with a non-empty query. -/
def witnessArgs : CodeGenArgs :=
  { query := some "make an app", language := none, frameworks := none
    selectedTemplate := none, agentMode := none }

/-- A concrete template resolution. -/
def witnessTemplate : TemplateResolution :=
  { sandboxSessionId := "sb", templateName := "tmpl", templateFiles := ["index.ts"] }

/-- A concrete environment in which the quota engine rejects. -/
def c1Env : BootstrapEnv :=
  { previewDomain := "preview.dev", quota := Except.error "Rate limit exceeded"
    template := witnessTemplate, blueprintChunks := [], agentInitResolves := true }

/-- A concrete environment in which the whole bootstrap succeeds and the
agent initialize promise resolves after one blueprint chunk. -/
def c2EnvResolve : BootstrapEnv :=
  { previewDomain := "preview.dev", quota := Except.ok ()
    template := witnessTemplate, blueprintChunks := ["b1"], agentInitResolves := true }

/-- A concrete environment identical to c2EnvResolve except that the
agent initialize promise rejects. -/
def c2EnvReject : BootstrapEnv :=
  { previewDomain := "preview.dev", quota := Except.ok ()
    template := witnessTemplate, blueprintChunks := ["b1"], agentInitResolves := false }

/-! ## Helper lemmas -/

/-- Folding the onChunk effect over a fragment list only concatenates onto
the accumulator slot; the enhanced-request slot is untouched. -/
theorem foldl_appendChunkToSlots (l : List String) (s : TurnSlots) :
    l.foldl appendChunkToSlots s =
      { extractedUserResponse := l.foldl (fun a c => a ++ c) s.extractedUserResponse
        extractedEnhancedRequest := s.extractedEnhancedRequest } := by
  induction l generalizing s with
  | nil => rfl
  | cons c rest ih => simp [List.foldl_cons, ih, appendChunkToSlots]

/-- Folding queue-an-edit invocations over the slots only overwrites the
enhanced-request slot; the accumulator slot is untouched. -/
theorem foldl_applyEditToolCall (l : List EditAppArgs) (s : TurnSlots) :
    l.foldl applyEditToolCall s =
      { extractedUserResponse := s.extractedUserResponse
        extractedEnhancedRequest :=
          l.foldl (fun _ args => args.modificationRequest) s.extractedEnhancedRequest } := by
  induction l generalizing s with
  | nil => rfl
  | cons a rest ih =>
      simp [List.foldl_cons, ih, applyEditToolCall, buildEditAppTool, editRequestMutator]

/-- The generator state after tagging a message list advances by its
length. -/
theorem tagNewMessages_snd (ms : List ConversationMessage) (g : Nat) :
    (tagNewMessages ms g).2 = g + ms.length := by
  induction ms generalizing g with
  | nil => simp [tagNewMessages]
  | cons m rest ih =>
      simp [tagNewMessages, IdGenerator.generateConversationId, ih]
      omega

/-- The correlation ids handed out while tagging a message list are the
consecutive counter values. -/
theorem tagNewMessages_map_id (ms : List ConversationMessage) (g : Nat) :
    (tagNewMessages ms g).1.map (fun m => m.conversationId) = List.range' g ms.length := by
  induction ms generalizing g with
  | nil => simp [tagNewMessages]
  | cons m rest ih =>
      simp [tagNewMessages, IdGenerator.generateConversationId, List.range'_succ,
        ConversationMessage.withConversationId, ih]

/-- Overwriting the correlation id does not change whether a message is an
internal-memo assistant message. -/
theorem memo_withConversationId (m : ConversationMessage) (i : Nat) :
    isInternalMemoAssistantMessage (m.withConversationId i) =
      isInternalMemoAssistantMessage m := by
  cases m with
  | mk role content conversationId =>
      cases role <;> cases content <;>
        simp [isInternalMemoAssistantMessage, ConversationMessage.withConversationId]

/-- Tagging preserves any property of messages that ignores the
correlation id; stated for the internal-memo predicate. -/
theorem tagNewMessages_memo_free (ms : List ConversationMessage) (g : Nat)
    (h : ∀ m ∈ ms, isInternalMemoAssistantMessage m = false) :
    ∀ m ∈ (tagNewMessages ms g).1, isInternalMemoAssistantMessage m = false := by
  induction ms generalizing g with
  | nil => simp [tagNewMessages]
  | cons m rest ih =>
      intro m' hm'
      simp only [tagNewMessages, List.mem_cons] at hm'
      rcases hm' with hm' | hm'
      · subst hm'
        rw [memo_withConversationId]
        exact h m (List.mem_cons_self m rest)
      · exact ih _ (fun x hx => h x (List.mem_cons_of_mem m hx)) m' hm'

/-- Closed form of execute on the success path: the exact output record
and final generator state, with the filtered-and-retagged new messages in
the middle. -/
theorem execute_ok_eq (inputs : UserConversationInputs) (inference : InferenceBehavior)
    (g0 : Nat) (result : InferenceResult) (hok : inference.outcome = Except.ok result) :
    UserConversationProcessor.execute inputs inference g0 =
      Except.ok
        ({ conversationResponse :=
             { enhancedUserRequest :=
                 inference.editToolCalls.foldl (fun _ args => args.modificationRequest) ""
               userResponse := inference.chunks.foldl (fun a c => a ++ c) "" }
           messages := inputs.pastMessages ++
             [(createUserMessage inputs.userMessage).withConversationId g0] ++
             (tagNewMessages (result.newMessages.filter
                (fun message => !(isInternalMemoAssistantMessage message))) (g0 + 2)).1 ++
             [(createAssistantMessage result.string).withConversationId
               (g0 + 2 + (result.newMessages.filter
                 (fun message => !(isInternalMemoAssistantMessage message))).length)] },
         g0 + 3 + (result.newMessages.filter
           (fun message => !(isInternalMemoAssistantMessage message))).length) := by
  simp only [UserConversationProcessor.execute, hok, IdGenerator.generateConversationId,
    foldl_appendChunkToSlots, foldl_applyEditToolCall, tagNewMessages_snd]
  simp [List.append_assoc]
  omega

/-- Closed form of execute on the fallback path (an error that is neither
a quota violation nor a security violation). -/
theorem execute_fallback_eq (inputs : UserConversationInputs) (inference : InferenceBehavior)
    (g0 : Nat) (msg : String)
    (herr : inference.outcome = Except.error (InferenceError.other msg)) :
    UserConversationProcessor.execute inputs inference g0 =
      Except.ok
        ({ conversationResponse :=
             { enhancedUserRequest := "User request: " ++ inputs.userMessage
               userResponse := FALLBACK_USER_RESPONSE }
           messages := inputs.pastMessages ++
             [(createUserMessage inputs.userMessage).withConversationId (g0 + 2),
              (createAssistantMessage FALLBACK_USER_RESPONSE).withConversationId (g0 + 3)] },
         g0 + 4) := by
  simp [UserConversationProcessor.execute, herr, IdGenerator.generateConversationId,
    isRateLimitOrSecurity]


/-! ## Claim theorems: conversational turn processor -/

/-- Claim C3: on a successful inference call, the returned messages are
the original history, then the incoming user message, then the
internal-memo-filtered new messages each retagged with a fresh correlation
id, then one final assistant message; the appended messages carry pairwise
distinct correlation ids and no internal-memo assistant message from
newMessages survives into the retagged segment. -/
theorem conversation_success_message_shape (inputs : UserConversationInputs)
    (inference : InferenceBehavior) (g0 : Nat) (result : InferenceResult)
    (hok : inference.outcome = Except.ok result) :
    (∃ resp : ConversationalResponseType, ∃ gEnd : Nat,
      UserConversationProcessor.execute inputs inference g0 =
        Except.ok
          ({ conversationResponse := resp
             messages := inputs.pastMessages ++
               [(createUserMessage inputs.userMessage).withConversationId g0] ++
               (tagNewMessages (result.newMessages.filter
                  (fun message => !(isInternalMemoAssistantMessage message))) (g0 + 2)).1 ++
               [(createAssistantMessage result.string).withConversationId
                 (g0 + 2 + (result.newMessages.filter
                   (fun message => !(isInternalMemoAssistantMessage message))).length)] },
           gEnd))
    ∧ (g0 :: ((tagNewMessages (result.newMessages.filter
          (fun message => !(isInternalMemoAssistantMessage message))) (g0 + 2)).1.map
            (fun m => m.conversationId)) ++
        [g0 + 2 + (result.newMessages.filter
          (fun message => !(isInternalMemoAssistantMessage message))).length]).Nodup
    ∧ ∀ m ∈ (tagNewMessages (result.newMessages.filter
        (fun message => !(isInternalMemoAssistantMessage message))) (g0 + 2)).1,
        isInternalMemoAssistantMessage m = false := by
  refine ⟨⟨_, _, execute_ok_eq inputs inference g0 result hok⟩, ?_, ?_⟩
  · rw [tagNewMessages_map_id, List.cons_append]
    have hconcat :
        List.range' (g0 + 2) ((result.newMessages.filter
            (fun message => !(isInternalMemoAssistantMessage message))).length) ++
          [g0 + 2 + (result.newMessages.filter
            (fun message => !(isInternalMemoAssistantMessage message))).length] =
        List.range' (g0 + 2) ((result.newMessages.filter
            (fun message => !(isInternalMemoAssistantMessage message))).length + 1) := by
      rw [List.range'_concat]
      simp
    rw [hconcat]
    simp [List.nodup_cons, List.mem_range'_1, List.nodup_range']
  · refine tagNewMessages_memo_free _ _ ?_
    intro m hm
    rcases List.mem_filter.mp hm with ⟨_, hpred⟩
    simpa using hpred

/-- Claim C3 witness: the distinct-correlation-id conjunct instantiated at
the concrete turn convInputs with the successful behaviour c3Inference. -/
theorem conversation_success_message_shape_witness :
    (0 :: ((tagNewMessages (c3Result.newMessages.filter
        (fun message => !(isInternalMemoAssistantMessage message))) (0 + 2)).1.map
          (fun m => m.conversationId)) ++
      [0 + 2 + (c3Result.newMessages.filter
        (fun message => !(isInternalMemoAssistantMessage message))).length]).Nodup :=
  (conversation_success_message_shape convInputs c3Inference 0 c3Result rfl).2.1

/-- Claim C4: when the inference call throws an error that is neither a
quota violation nor a security violation, execute returns (does not
throw) exactly the fallback result: the enhanced request is the literal
forwarding of the raw user text, the visible response is the fixed
fallback string, and the history is the original history plus the raw
user message plus the fallback assistant message; the result does not
depend on the streamed fragments, so any partial streamed text is
discarded. -/
theorem conversation_fallback_shape (inputs : UserConversationInputs)
    (inference : InferenceBehavior) (g0 : Nat) (msg : String)
    (herr : inference.outcome = Except.error (InferenceError.other msg)) :
    UserConversationProcessor.execute inputs inference g0 =
      Except.ok
        ({ conversationResponse :=
             { enhancedUserRequest := "User request: " ++ inputs.userMessage
               userResponse := FALLBACK_USER_RESPONSE }
           messages := inputs.pastMessages ++
             [(createUserMessage inputs.userMessage).withConversationId (g0 + 2),
              (createAssistantMessage FALLBACK_USER_RESPONSE).withConversationId (g0 + 3)] },
         g0 + 4) :=
  execute_fallback_eq inputs inference g0 msg herr

/-- Claim C4 witness: the fallback shape at the concrete turn convInputs
with the plain-error behaviour c4Inference, whose partial streamed text
does not appear in the output. -/
theorem conversation_fallback_shape_witness :
    UserConversationProcessor.execute convInputs c4Inference 0 =
      Except.ok
        ({ conversationResponse :=
             { enhancedUserRequest := "User request: " ++ convInputs.userMessage
               userResponse := FALLBACK_USER_RESPONSE }
           messages := convInputs.pastMessages ++
             [(createUserMessage convInputs.userMessage).withConversationId 2,
              (createAssistantMessage FALLBACK_USER_RESPONSE).withConversationId 3] },
         4) :=
  conversation_fallback_shape convInputs c4Inference 0 "boom" rfl

/-- Claim C5: when the inference call throws a quota-violation or a
security-violation error, execute re-raises the identical error value,
unwrapped and unconverted. -/
theorem conversation_propagates_quota_security (inputs : UserConversationInputs)
    (inference : InferenceBehavior) (g0 : Nat) (e : InferenceError)
    (herr : inference.outcome = Except.error e)
    (hkind : isRateLimitOrSecurity e = true) :
    UserConversationProcessor.execute inputs inference g0 = Except.error e := by
  simp [UserConversationProcessor.execute, herr, hkind]

/-- Claim C5 witness: the rate-limit error of c5Inference propagates
unchanged out of execute at the concrete turn convInputs. -/
theorem conversation_propagates_quota_security_witness :
    UserConversationProcessor.execute convInputs c5Inference 0 =
      Except.error (InferenceError.rateLimitExceeded "rate limited") :=
  conversation_propagates_quota_security convInputs c5Inference 0
    (InferenceError.rateLimitExceeded "rate limited") rfl rfl

/-- Claim C6: on a successful turn whose assembled result string is the
concatenation of the streamed fragments (the inference adapter's
contract), the final assistant message appended to the history carries
exactly the accumulated text, and the turn result pairs that accumulated
text (userResponse) with the independently produced enhanced request. -/
theorem conversation_accumulated_response (inputs : UserConversationInputs)
    (inference : InferenceBehavior) (g0 : Nat) (result : InferenceResult)
    (hok : inference.outcome = Except.ok result)
    (hassembled : result.string = inference.chunks.foldl (fun a c => a ++ c) "") :
    ∃ out : UserConversationOutputs, ∃ gEnd : Nat,
      UserConversationProcessor.execute inputs inference g0 = Except.ok (out, gEnd)
      ∧ out.conversationResponse.userResponse =
          inference.chunks.foldl (fun a c => a ++ c) ""
      ∧ out.conversationResponse.enhancedUserRequest =
          inference.editToolCalls.foldl (fun _ args => args.modificationRequest) ""
      ∧ out.messages.getLast? = some
          { role := Role.assistant
            content := MessageContent.str (inference.chunks.foldl (fun a c => a ++ c) "")
            conversationId := g0 + 2 + (result.newMessages.filter
              (fun message => !(isInternalMemoAssistantMessage message))).length } := by
  refine ⟨_, _, execute_ok_eq inputs inference g0 result hok, rfl, rfl, ?_⟩
  rw [List.getLast?_concat]
  simp [createAssistantMessage, ConversationMessage.withConversationId, hassembled]

/-- Claim C6 witness: the existence conjunction instantiated at the
concrete turn convInputs with the behaviour c6Inference, which streams
two fragments assembling to the result string. -/
theorem conversation_accumulated_response_witness :
    ∃ out : UserConversationOutputs, ∃ gEnd : Nat,
      UserConversationProcessor.execute convInputs c6Inference 0 = Except.ok (out, gEnd)
      ∧ out.conversationResponse.userResponse =
          c6Inference.chunks.foldl (fun a c => a ++ c) ""
      ∧ out.conversationResponse.enhancedUserRequest =
          c6Inference.editToolCalls.foldl (fun _ args => args.modificationRequest) ""
      ∧ out.messages.getLast? = some
          { role := Role.assistant
            content := MessageContent.str (c6Inference.chunks.foldl (fun a c => a ++ c) "")
            conversationId := 0 + 2 + (c6Result.newMessages.filter
              (fun message => !(isInternalMemoAssistantMessage message))).length } :=
  conversation_accumulated_response convInputs c6Inference 0 c6Result rfl (by decide)

/-- Claim C7: the queue-an-edit tool declares a modificationRequest string
parameter of minimum length 8 in its required list, and its
implementation, for every argument object and every slot state, writes
the description into the enhanced-request slot through the supplied
mutator, returns the fixed acknowledgement string, and changes nothing
else in the turn-local state. -/
theorem edit_tool_schema_and_effect :
    (buildEditAppTool editRequestMutator).function.parameters.modificationRequest.minLength = 8
    ∧ (buildEditAppTool editRequestMutator).function.parameters.required =
        ["modificationRequest"]
    ∧ ∀ (args : EditAppArgs) (slots : TurnSlots),
        (buildEditAppTool editRequestMutator).implementation args slots =
          ({ content := "Modification request queued successfully, will be implemented in the next phase of development." },
           { slots with extractedEnhancedRequest := args.modificationRequest }) :=
  ⟨rfl, rfl, fun _ _ => rfl⟩

/-- Claim C9: the project-update summarizer is deterministic in the update
type: two consecutive calls with the same type yield two single-element
message lists whose internal-memo assistant messages carry identical
content text but distinct fresh correlation ids; on internal failure it
returns the empty list instead of raising. -/
theorem project_update_summarizer_props (t : ProjectUpdateType) (g : Nat) :
    UserConversationProcessor.processProjectUpdates t false g =
      ([{ role := Role.assistant, content := MessageContent.str (preparedMessage t)
          conversationId := g }], g + 1)
    ∧ UserConversationProcessor.processProjectUpdates t false (g + 1) =
      ([{ role := Role.assistant, content := MessageContent.str (preparedMessage t)
          conversationId := g + 1 }], g + 2)
    ∧ isInternalMemoAssistantMessage
        { role := Role.assistant, content := MessageContent.str (preparedMessage t)
          conversationId := g } = true
    ∧ g ≠ g + 1
    ∧ UserConversationProcessor.processProjectUpdates t true g = ([], g) := by
  refine ⟨rfl, rfl, ?_, by omega, rfl⟩
  simp only [isInternalMemoAssistantMessage]
  cases t <;> decide

/-- Claim C10: execute never loses or reorders the received history: on
every path on which it returns, the returned messages list has the
pastMessages input, unchanged and in order, as its initial segment (in
this pure embedding the input list itself is immutable by construction). -/
theorem conversation_never_mutates_history (inputs : UserConversationInputs)
    (inference : InferenceBehavior) (g0 : Nat) :
    match UserConversationProcessor.execute inputs inference g0 with
    | Except.ok p => inputs.pastMessages <+: p.1.messages
    | Except.error _ => True := by
  rcases h : inference.outcome with e | result
  · by_cases hk : isRateLimitOrSecurity e = true
    · simp [UserConversationProcessor.execute, h, hk]
    · cases e with
      | rateLimitExceeded m => simp [isRateLimitOrSecurity] at hk
      | securityError m => simp [isRateLimitOrSecurity] at hk
      | other m =>
          rw [execute_fallback_eq inputs inference g0 m h]
          exact ⟨_, rfl⟩
  · rw [execute_ok_eq inputs inference g0 result h]
    refine ⟨[(createUserMessage inputs.userMessage).withConversationId g0] ++
      (tagNewMessages (result.newMessages.filter
        (fun message => !(isInternalMemoAssistantMessage message))) (g0 + 2)).1 ++
      [(createAssistantMessage result.string).withConversationId
        (g0 + 2 + (result.newMessages.filter
          (fun message => !(isInternalMemoAssistantMessage message))).length)], ?_⟩
    simp [List.append_assoc]

/-! ## Claim theorems: bootstrap controller -/

/-- Claim C8: the duplex-stream transform enqueues, for every non-sentinel
chunk, exactly the JSON serialization of the chunk followed by one
newline, leaving the termination flag alone; for the sentinel string it
terminates the stream and enqueues nothing, so the sentinel is never
serialized. -/
theorem transform_stream_behaviour (chunk : WriteChunk) (c : TransformController) :
    (chunk ≠ WriteChunk.strVal "terminate" →
      transform chunk c =
        { c with enqueued := c.enqueued ++ [jsonStringify chunk ++ "\n"] })
    ∧ (chunk = WriteChunk.strVal "terminate" →
      transform chunk c = { c with terminated := true }) := by
  constructor
  · intro h
    simp [transform, h]
  · intro h
    simp [transform, h]

/-- Claim C8 witness: one blueprint-fragment chunk is serialized and
enqueued with a trailing newline, and the sentinel terminates the stream
leaving the enqueued list unchanged. -/
theorem transform_stream_behaviour_witness :
    transform (WriteChunk.chunkEvent "hi") { enqueued := [], terminated := false } =
      { enqueued := ["\x7b\"chunk\":\"hi\"\x7d" ++ "\n"], terminated := false }
    ∧ transform (WriteChunk.strVal "terminate") { enqueued := ["x"], terminated := false } =
      { enqueued := ["x"], terminated := true } := by
  constructor
  · have h := (transform_stream_behaviour (WriteChunk.chunkEvent "hi")
      { enqueued := [], terminated := false }).1 (by decide)
    rw [h]
    decide
  · exact (transform_stream_behaviour (WriteChunk.strVal "terminate")
      { enqueued := ["x"], terminated := false }).2 rfl

/-- Claim C1 counterexample: at a concrete quota-rejected request the
controller does return 429 with the quota message, yet the trace shows a
duplex stream was constructed (TransformStream and writer are created
before the quota check), so the claim that no duplex stream is opened for
a quota-rejected request is false. -/
theorem bootstrap_quota_rejection_counterexample :
    (startCodeGeneration witnessReq (RequestBody.parsed witnessArgs) c1Env 0).1 =
      HttpResponse.jsonError "Rate limit exceeded" 429
    ∧ (startCodeGeneration witnessReq (RequestBody.parsed witnessArgs) c1Env 0).2.streamsCreated ≠ 0 := by
  constructor
  · rfl
  · decide

/-- Claim C1 (amended): for every quota-rejected bootstrap request the
controller returns HTTP 429 carrying the quota engine's message, the id
generator is never called, no agent-actor handle is requested, nothing is
ever written to the duplex stream and the stream is not returned to the
caller — but the stream object itself has already been constructed
(exactly one) before the quota check runs. -/
theorem bootstrap_quota_rejection_shape (req : RequestInfo) (args : CodeGenArgs)
    (env : BootstrapEnv) (g : Nat) (query msg : String)
    (hq : args.query = some query) (hqne : query ≠ "")
    (hquota : env.quota = Except.error msg) :
    startCodeGeneration req (RequestBody.parsed args) env g =
      (HttpResponse.jsonError msg 429,
       { streamsCreated := 1, idGenCalls := 0, agentStubRequests := 0
         writes := [], writerClosed := false }) := by
  simp [startCodeGeneration, hq, hqne, hquota, emptyTrace]

/-- Claim C1 witness: the amended shape at the concrete quota-rejected
fixture. -/
theorem bootstrap_quota_rejection_shape_witness :
    startCodeGeneration witnessReq (RequestBody.parsed witnessArgs) c1Env 0 =
      (HttpResponse.jsonError "Rate limit exceeded" 429,
       { streamsCreated := 1, idGenCalls := 0, agentStubRequests := 0
         writes := [], writerClosed := false }) :=
  bootstrap_quota_rejection_shape witnessReq witnessArgs c1Env 0 "make an app"
    "Rate limit exceeded" rfl (by decide) rfl

/-- Claim C2 counterexample: at a concrete successful bootstrap whose
agent-initialization promise rejects, the 200 stream response was
returned, yet no terminate sentinel is ever written and the writer is
never closed — the then-handler has no rejection branch — so the claim
that the sentinel is emitted whenever initialization settles (resolve or
reject) is false. -/
theorem bootstrap_no_terminate_on_reject :
    (startCodeGeneration witnessReq (RequestBody.parsed witnessArgs) c2EnvReject 0).1 =
      HttpResponse.streamResponse 200
    ∧ (startCodeGeneration witnessReq (RequestBody.parsed witnessArgs) c2EnvReject 0).2.writes.count
        (WriteChunk.strVal "terminate") = 0
    ∧ (startCodeGeneration witnessReq (RequestBody.parsed witnessArgs) c2EnvReject 0).2.writerClosed =
        false := by
  refine ⟨rfl, ?_, rfl⟩
  decide

/-- Claim C2 (amended): for every successful bootstrap, when the agent
initialization promise resolves the controller writes the terminate
sentinel exactly once, as the last write on the stream, and closes the
writer; when the promise rejects no sentinel is written and the writer
stays open, because the completion handler only covers resolution. -/
theorem bootstrap_terminate_on_resolve (req : RequestInfo) (args : CodeGenArgs)
    (env : BootstrapEnv) (g : Nat) (query : String)
    (hq : args.query = some query) (hqne : query ≠ "")
    (hquota : env.quota = Except.ok ())
    (hres : env.agentInitResolves = true) :
    (startCodeGeneration req (RequestBody.parsed args) env g).1 =
      HttpResponse.streamResponse 200
    ∧ (startCodeGeneration req (RequestBody.parsed args) env g).2.writes.count
        (WriteChunk.strVal "terminate") = 1
    ∧ (startCodeGeneration req (RequestBody.parsed args) env g).2.writerClosed = true
    ∧ ∃ ws : List WriteChunk,
        (startCodeGeneration req (RequestBody.parsed args) env g).2.writes =
          ws ++ [WriteChunk.strVal "terminate"] := by
  have hmap : ∀ l : List String,
      (l.map WriteChunk.chunkEvent).count (WriteChunk.strVal "terminate") = 0 := by
    intro l
    refine List.count_eq_zero.mpr ?_
    simp [List.mem_map]
  refine ⟨?_, ?_, ?_, ?_⟩
  · simp [startCodeGeneration, hq, hqne, hquota]
  · simp [startCodeGeneration, hq, hqne, hquota, hres, List.count_cons, List.count_append,
      hmap]
  · simp [startCodeGeneration, hq, hqne, hquota, hres]
  · refine ⟨WriteChunk.firstEvent "Code generation started" (generateId g).1
      ((if req.urlProtocol = "https:" then "wss:" else "ws:") ++
        "//" ++ req.urlHost ++ "/api/agent/" ++ (generateId g).1 ++ "/ws")
      (req.urlOrigin ++ "/api/agent/" ++ (generateId g).1)
      env.template.templateName env.template.templateFiles ::
      env.blueprintChunks.map WriteChunk.chunkEvent, ?_⟩
    simp [startCodeGeneration, hq, hqne, hquota, hres]

/-- Claim C2 witness: the amended conclusion at the concrete successful
fixture whose initialization promise resolves after one blueprint
fragment. -/
theorem bootstrap_terminate_on_resolve_witness :
    (startCodeGeneration witnessReq (RequestBody.parsed witnessArgs) c2EnvResolve 0).1 =
      HttpResponse.streamResponse 200
    ∧ (startCodeGeneration witnessReq (RequestBody.parsed witnessArgs) c2EnvResolve 0).2.writes.count
        (WriteChunk.strVal "terminate") = 1
    ∧ (startCodeGeneration witnessReq (RequestBody.parsed witnessArgs) c2EnvResolve 0).2.writerClosed =
        true
    ∧ ∃ ws : List WriteChunk,
        (startCodeGeneration witnessReq (RequestBody.parsed witnessArgs) c2EnvResolve 0).2.writes =
          ws ++ [WriteChunk.strVal "terminate"] :=
  bootstrap_terminate_on_resolve witnessReq witnessArgs c2EnvResolve 0 "make an app"
    rfl (by decide) rfl rfl
